import Mathlib

/-!
Verification of the batch mailbox-verification engine of the `emailval`
repository against its specification.

The Lean definitions below are a shallow embedding of the Python sources:

* `modules/utils.py`        : `extract_domain`
* `modules/domain_check.py` : `validate_domain` with its process-wide cache,
  modelled with explicit cache-state passing and a DNS environment oracle
* `modules/smtp_check_async.py` : `validate_smtp_single`, the per-address
  mailbox probe, with the network session outcome as an explicit parameter
* `modules/catchall_check.py`   : `check_catchall_domain`
* `modules/job_tracker.py`      : `JobTracker` job state and its operations
* `app.py` : the pre-check-only path of `run_smtp_validation_background`,
  with Python positional-argument semantics made explicit where a call site
  passes more arguments than the callee accepts

All timestamps are rationals, Python ints are `Int`, Python lists are `List`.
-/

/-- The confidence levels used by probe and catch-all classification
(`"high" | "medium" | "low"` strings in the source). -/
inductive Confidence where
  | high
  | medium
  | low
deriving DecidableEq, Repr

/-- The `smtp_status` values of `validate_smtp_single`
(`"unknown" | "verified" | "unverifiable" | "invalid"` in the source). -/
inductive SmtpStatus where
  | unknown
  | verified
  | unverifiable
  | invalid
deriving DecidableEq, Repr

/-- `utils.extract_domain`: `email.split('@')[-1]` — the segment after the
last `@` — or `""` when the address has no `@` at all.  Implemented on the
underlying character list so that it evaluates by kernel reduction. -/
def extract_domain (email : String) : String :=
  if email.toList.contains '@' then
    String.mk ((email.toList.reverse.takeWhile (fun c => c ≠ '@')).reverse)
  else ""

/-- Python substring containment `needle in hay` on strings. -/
def strContains (hay needle : String) : Bool :=
  hay.toList.tails.any (fun t => needle.toList.isPrefixOf t)

/-- Python `str.lower()` restricted to ASCII (domains are ASCII here),
implemented on the character list so that it evaluates by kernel
reduction. -/
def strToLower (s : String) : String :=
  String.mk (s.toList.map (fun c => if 'A' ≤ c ∧ c ≤ 'Z' then Char.ofNat (c.toNat + 32) else c))

/-- The domain-check dictionary shape shared by `domain_check.validate_domain`
results and the `domain_info` dictionaries passed into the probe. -/
structure DomainInfo where
  valid : Bool
  has_mx : Bool
  has_a : Bool
  mx_records : List String
  errors : List String
deriving DecidableEq, Repr

/-- Outcome of one SMTP session attempt (connect, HELO, MAIL, RCPT) as seen
by the caller: either the RCPT response code with the HELO and RCPT message
texts, or an exception (any of the caught error classes), carrying the
response text accumulated before the failure and the exception message. -/
inductive SmtpAttempt where
  | response (heloMsg : String) (code : Nat) (rcptMsg : String)
  | netError (respSoFar : String) (msg : String)
deriving DecidableEq, Repr

/-- The result dictionary of `validate_smtp_single`.  The `smtp_status` and
`confidence` keys are absent from the early-return dictionaries (no domain /
skipped), hence `Option`. -/
structure ProbeResult where
  email : String
  valid : Bool
  mailbox_exists : Bool
  smtp_status : Option SmtpStatus
  confidence : Option Confidence
  smtp_response : String
  errors : List String
  skipped : Bool
deriving DecidableEq, Repr

/-- The hardcoded allowlist of major consumer providers in
`validate_smtp_single`. -/
def majorProviders : List String :=
  ["gmail.com", "yahoo.com", "hotmail.com", "outlook.com",
   "aol.com", "icloud.com", "live.com", "msn.com"]

/-- The provider test of the source:
`any(provider in domain.lower() for provider in major_providers)` —
note that this is a substring test, not list membership. -/
def isMajorProviderDomain (domain : String) : Bool :=
  majorProviders.any (fun p => strContains (strToLower domain) p)

/-- The `domain_check` dictionary used by `validate_smtp_single`: the
provided `domain_info` when there is one, otherwise a fresh
`validate_domain(email)` call (abstracted here as `resolver`, since the
probe only reads the returned record). -/
def effective_domain_check (email : String) (domain_info : Option DomainInfo)
    (resolver : String → DomainInfo) : DomainInfo :=
  match domain_info with
  | some di => di
  | none => resolver email

/-- `smtp_check_async.validate_smtp_single`.  The SMTP session outcome is the
explicit `net` parameter; everything else mirrors the source line by line. -/
def validate_smtp_single (email : String) (sender : String)
    (domain_info : Option DomainInfo) (resolver : String → DomainInfo)
    (net : SmtpAttempt) : ProbeResult :=
  let domain := extract_domain email
  if domain = "" then
    { email := email, valid := false, mailbox_exists := false,
      smtp_status := none, confidence := none, smtp_response := "",
      errors := ["Could not extract domain from email"], skipped := false }
  else
    let domain_check := effective_domain_check email domain_info resolver
    if ¬ domain_check.valid then
      { email := email, valid := false, mailbox_exists := false,
        smtp_status := none, confidence := none, smtp_response := "",
        errors := if domain_check.errors.isEmpty
                  then ["Domain has no valid MX or A records"]
                  else domain_check.errors,
        skipped := true }
    else
      match net with
      | SmtpAttempt.netError respSoFar msg =>
        { email := email, valid := true, mailbox_exists := true,
          smtp_status := some SmtpStatus.unverifiable,
          confidence := some Confidence.low,
          smtp_response := respSoFar.take 200,
          errors := ["SMTP error: " ++ msg.take 100 ++ " - assuming valid"],
          skipped := false }
      | SmtpAttempt.response heloMsg code rcptMsg =>
        let resp := heloMsg ++ " | RCPT: " ++ toString code ++ " " ++ rcptMsg
        let cls : Bool × SmtpStatus × Confidence × List String :=
          if code = 250 ∨ code = 251 then
            (true, SmtpStatus.verified, Confidence.high, [])
          else if code = 450 ∨ code = 451 ∨ code = 452 then
            (true, SmtpStatus.unverifiable, Confidence.medium,
             ["Temporary failure (code " ++ toString code ++ ") - assuming valid"])
          else if code = 550 then
            if isMajorProviderDomain domain then
              (true, SmtpStatus.unverifiable, Confidence.medium,
               ["Provider blocks verification (code " ++ toString code
                ++ ") - assuming valid"])
            else
              (false, SmtpStatus.invalid, Confidence.high,
               ["Mailbox doesn\x27t exist (code " ++ toString code ++ ")"])
          else if code = 421 ∨ code = 554 then
            (true, SmtpStatus.unverifiable, Confidence.low,
             ["Service unavailable (code " ++ toString code ++ ") - assuming valid"])
          else
            (true, SmtpStatus.unverifiable, Confidence.low,
             ["Unknown SMTP code " ++ toString code ++ " - assuming valid"])
        { email := email, valid := cls.1, mailbox_exists := cls.1,
          smtp_status := some cls.2.1, confidence := some cls.2.2.1,
          smtp_response := resp.take 200,
          errors := cls.2.2.2, skipped := false }

/-- C1: a probe attempt that ends in any connection or transport failure
(timeout, refused, unresolvable host, disconnect, protocol error — all
modelled by `SmtpAttempt.netError`) yields `mailbox_exists = true`
(mailboxPlausible), `smtp_status = unverifiable` and `confidence = low`;
in particular the status is never `invalid` for such a failure. -/
theorem c1_transport_failure_fails_open
    (email sender : String) (domain_info : Option DomainInfo)
    (resolver : String → DomainInfo) (respSoFar msg : String)
    (hdom : extract_domain email ≠ "")
    (hvalid : (effective_domain_check email domain_info resolver).valid = true) :
    let r := validate_smtp_single email sender domain_info resolver
      (SmtpAttempt.netError respSoFar msg)
    r.valid = true ∧ r.mailbox_exists = true ∧
    r.smtp_status = some SmtpStatus.unverifiable ∧
    r.confidence = some Confidence.low ∧
    r.smtp_status ≠ some SmtpStatus.invalid := by
  intro r
  have h1 : ¬ (extract_domain email = "") := hdom
  simp only [r, validate_smtp_single, if_neg h1, hvalid]
  simp

/-- C1 witness: a concrete connection-refused probe of `user@example.com`
with a valid domain record. -/
theorem c1_transport_failure_fails_open_witness :
    let di : DomainInfo :=
      { valid := true, has_mx := true, has_a := false,
        mx_records := ["mx.example.com."], errors := [] }
    let r := validate_smtp_single ("user@example.com") ("noreply@validator.local")
      (some di) (fun _ => di) (SmtpAttempt.netError "" "Connection refused")
    r.valid = true ∧ r.mailbox_exists = true ∧
    r.smtp_status = some SmtpStatus.unverifiable ∧
    r.confidence = some Confidence.low ∧
    r.smtp_status ≠ some SmtpStatus.invalid := by
  intro di r
  exact c1_transport_failure_fails_open ("user@example.com")
    ("noreply@validator.local") (some di) (fun _ => di) "" "Connection refused"
    (by decide) (by decide)

/-- C2 counterexample: `notgmail.com` is not in the major-provider allowlist,
yet a 550 permanent reject for `user@notgmail.com` is classified
`unverifiable`/`medium` with `mailbox_exists = true` — not `invalid`/`high`
with `mailbox_exists = false` as the claim requires for a domain that is not
a known large provider.  The cause: the source tests
`provider in domain.lower()`, a substring match, and `"gmail.com"` is a
substring of `"notgmail.com"`. -/
theorem c2_substring_provider_counterexample :
    let di : DomainInfo :=
      { valid := true, has_mx := true, has_a := false,
        mx_records := ["mx.notgmail.com."], errors := [] }
    let r := validate_smtp_single ("user@notgmail.com") ("noreply@validator.local")
      (some di) (fun _ => di) (SmtpAttempt.response "ok" 550 "no such user")
    ("notgmail.com" ∉ majorProviders) ∧
    r.smtp_status = some SmtpStatus.unverifiable ∧
    r.confidence = some Confidence.medium ∧
    r.valid = true ∧
    ¬ (r.smtp_status = some SmtpStatus.invalid ∧ r.confidence = some Confidence.high ∧
       r.valid = false) := by
  refine ⟨by decide, ?_, ?_, ?_, ?_⟩ <;> decide

/-- C2 (amended): on a 550 permanent reject the probe branches on the
provider predicate of the source — some allowlisted provider name occurring as a
substring of the lowercased domain (exact membership in the allowlist is a
special case).  When the predicate holds the result is
plausible/`unverifiable`/`medium`; when it fails the result is
implausible/`invalid`/`high`. -/
theorem c2_permanent_reject_classification
    (email sender : String) (domain_info : Option DomainInfo)
    (resolver : String → DomainInfo) (heloMsg rcptMsg : String)
    (hdom : extract_domain email ≠ "")
    (hvalid : (effective_domain_check email domain_info resolver).valid = true) :
    let r := validate_smtp_single email sender domain_info resolver
      (SmtpAttempt.response heloMsg 550 rcptMsg)
    (isMajorProviderDomain (extract_domain email) = true →
      r.valid = true ∧ r.mailbox_exists = true ∧
      r.smtp_status = some SmtpStatus.unverifiable ∧
      r.confidence = some Confidence.medium) ∧
    (isMajorProviderDomain (extract_domain email) = false →
      r.valid = false ∧ r.mailbox_exists = false ∧
      r.smtp_status = some SmtpStatus.invalid ∧
      r.confidence = some Confidence.high) := by
  intro r
  have h1 : ¬ (extract_domain email = "") := hdom
  constructor
  · intro hmaj
    simp only [r, validate_smtp_single, if_neg h1, hvalid, hmaj]
    simp
  · intro hmaj
    simp only [r, validate_smtp_single, if_neg h1, hvalid, hmaj]
    simp

/-- C2 witness: the amended classification applied to a genuine allowlisted
provider (`gmail.com`, predicate true) at a concrete 550 response. -/
theorem c2_permanent_reject_classification_witness :
    let di : DomainInfo :=
      { valid := true, has_mx := true, has_a := false,
        mx_records := ["gmail-smtp-in.l.google.com."], errors := [] }
    let r := validate_smtp_single ("user@gmail.com") ("noreply@validator.local")
      (some di) (fun _ => di) (SmtpAttempt.response "ok" 550 "blocked")
    r.valid = true ∧ r.mailbox_exists = true ∧
    r.smtp_status = some SmtpStatus.unverifiable ∧
    r.confidence = some Confidence.medium := by
  intro di r
  exact (c2_permanent_reject_classification ("user@gmail.com")
    ("noreply@validator.local") (some di) (fun _ => di) "ok" "blocked"
    (by decide) (by decide)).1 (by decide)

/-- C10: when the supplied domain record is invalid (no usable MX/A), the
probe returns a result with `skipped = true`, carrying the domain-level
failure reasons in `errors` (falling back to a generic message only when the
record carries none), without `smtp_status`/`confidence` keys — so the
outcome is distinct from a probed `invalid` (which always has
`skipped = false` and `smtp_status = some invalid`) — and the result does
not depend on the network at all (no network I/O is modelled as
independence from the session outcome). -/
theorem c10_probe_skips_invalid_domain
    (email sender : String) (di : DomainInfo)
    (resolver : String → DomainInfo) (net netB : SmtpAttempt)
    (hdom : extract_domain email ≠ "")
    (hinvalid : di.valid = false) :
    let r := validate_smtp_single email sender (some di) resolver net
    r.skipped = true ∧ r.valid = false ∧ r.mailbox_exists = false ∧
    r.smtp_status = none ∧ r.smtp_status ≠ some SmtpStatus.invalid ∧
    (di.errors ≠ [] → r.errors = di.errors) ∧
    (di.errors = [] → r.errors = ["Domain has no valid MX or A records"]) ∧
    validate_smtp_single email sender (some di) resolver net =
      validate_smtp_single email sender (some di) resolver netB := by
  intro r
  have h1 : ¬ (extract_domain email = "") := hdom
  have h2 : ¬ ((effective_domain_check email (some di) resolver).valid = true) := by
    simp [effective_domain_check, hinvalid]
  have key : ∀ n : SmtpAttempt, validate_smtp_single email sender (some di) resolver n =
      { email := email, valid := false, mailbox_exists := false,
        smtp_status := none, confidence := none, smtp_response := "",
        errors := if di.errors.isEmpty then ["Domain has no valid MX or A records"]
                  else di.errors,
        skipped := true } := by
    intro n
    simp only [validate_smtp_single, if_neg h1, if_pos h2]
    rfl
  have hr : r = _ := key net
  rw [hr]
  refine ⟨rfl, rfl, rfl, rfl, by simp, ?_, ?_, (key net).trans (key netB).symm⟩
  · intro h
    simp [List.isEmpty_iff, h]
  · intro h
    simp [h]

/-- C10 witness: a concrete probe of an address whose domain record is
invalid with an NXDOMAIN-style reason. -/
theorem c10_probe_skips_invalid_domain_witness :
    let di : DomainInfo :=
      { valid := false, has_mx := false, has_a := false,
        mx_records := [], errors := ["Domain nosuch.example does not exist"] }
    let r := validate_smtp_single ("user@nosuch.example") ("noreply@validator.local")
      (some di) (fun _ => di) (SmtpAttempt.response "ok" 250 "accepted")
    r.skipped = true ∧ r.valid = false ∧ r.smtp_status = none ∧
    r.errors = ["Domain nosuch.example does not exist"] := by
  intro di r
  have h := c10_probe_skips_invalid_domain ("user@nosuch.example")
    ("noreply@validator.local") di (fun _ => di)
    (SmtpAttempt.response "ok" 250 "accepted")
    (SmtpAttempt.netError "" "unused") (by decide) (by decide)
  exact ⟨h.1, h.2.1, h.2.2.2.1, h.2.2.2.2.2.1 (by decide)⟩

/-- The result dictionary of `catchall_check.check_catchall_domain`.  Each
`test_results` entry is the (random address, code, truncated response)
triple recorded for a trial that got an SMTP response. -/
structure CatchAllRecord where
  is_catchall : Bool
  confidence : Confidence
  tests_run : Nat
  accepts_count : Nat
  rejects_count : Nat
  test_results : List (String × Nat × String)
  errors : List String
deriving DecidableEq, Repr

/-- Accumulator of the trial loop in `check_catchall_domain`. -/
structure CatchAllScan where
  accepts : Nat
  rejects : Nat
  errs : List String
  tests : List (String × Nat × String)
deriving DecidableEq, Repr

/-- `catchall_check.check_catchall_domain`.  Randomness and the network are
abstracted as oracles: `randEmail i` is the random address generated for
trial `i` and `env i` is the SMTP session outcome of that trial.  The loop body
and the final classification mirror the source. -/
def check_catchall_domain (randEmail : Nat → String) (num_tests : Nat)
    (env : Nat → SmtpAttempt) : CatchAllRecord :=
  let scan := (List.range num_tests).foldl
    (fun (acc : CatchAllScan) i =>
      match env i with
      | SmtpAttempt.response _ code rcptMsg =>
        let acc := { acc with
          tests := acc.tests ++ [(randEmail i, code, rcptMsg.take 100)] }
        if code = 250 ∨ code = 251 then { acc with accepts := acc.accepts + 1 }
        else { acc with rejects := acc.rejects + 1 }
      | SmtpAttempt.netError _ msg =>
        { acc with errs := acc.errs ++
            ["Test " ++ toString (i + 1) ++ " failed: " ++ msg.take 100] })
    { accepts := 0, rejects := 0, errs := [], tests := [] }
  let cls : Bool × Confidence × List String :=
    if scan.accepts = 0 ∧ scan.rejects = 0 then
      (false, Confidence.low,
       scan.errs ++ ["Unable to determine catch-all status - all tests failed"])
    else if scan.accepts = num_tests then (true, Confidence.high, scan.errs)
    else if scan.accepts > 0 then (true, Confidence.medium, scan.errs)
    else (false, Confidence.high, scan.errs)
  { is_catchall := cls.1, confidence := cls.2.1, tests_run := num_tests,
    accepts_count := scan.accepts, rejects_count := scan.rejects,
    test_results := scan.tests, errors := cls.2.2 }

/-- A trial whose RCPT response code is an accept code (250/251). -/
def trialAccepted : SmtpAttempt → Bool
  | SmtpAttempt.response _ code _ => code = 250 ∨ code = 251
  | SmtpAttempt.netError _ _ => false

/-- A trial that got a response with a non-accept code. -/
def trialRejected : SmtpAttempt → Bool
  | SmtpAttempt.response _ code _ => ¬ (code = 250 ∨ code = 251)
  | SmtpAttempt.netError _ _ => false

/-- A trial whose SMTP session raised (no response at all). -/
def trialFailed : SmtpAttempt → Bool
  | SmtpAttempt.response _ _ _ => false
  | SmtpAttempt.netError _ _ => true

/-- C6: with `trials = 2`, the catch-all classification is: both trials
failed to connect/respond → not catch-all, confidence low, with the
inconclusive note; both accepted → catch-all, confidence high; exactly one
accepted and one rejected → catch-all, confidence medium; both rejected →
not catch-all, confidence high. -/
theorem c6_catchall_two_trial_classification
    (randEmail : Nat → String) (env : Nat → SmtpAttempt) :
    let r := check_catchall_domain randEmail 2 env
    (trialFailed (env 0) = true → trialFailed (env 1) = true →
      r.is_catchall = false ∧ r.confidence = Confidence.low ∧
      "Unable to determine catch-all status - all tests failed" ∈ r.errors) ∧
    (trialAccepted (env 0) = true → trialAccepted (env 1) = true →
      r.is_catchall = true ∧ r.confidence = Confidence.high) ∧
    ((trialAccepted (env 0) = true ∧ trialRejected (env 1) = true) ∨
     (trialRejected (env 0) = true ∧ trialAccepted (env 1) = true) →
      r.is_catchall = true ∧ r.confidence = Confidence.medium) ∧
    (trialRejected (env 0) = true → trialRejected (env 1) = true →
      r.is_catchall = false ∧ r.confidence = Confidence.high) := by
  intro r
  have hrange : List.range 2 = [0, 1] := by decide
  rcases h0 : env 0 with ⟨helo0, c0, m0⟩ | ⟨p0, e0⟩ <;>
  rcases h1 : env 1 with ⟨helo1, c1, m1⟩ | ⟨p1, e1⟩
  · by_cases hc0 : c0 = 250 ∨ c0 = 251 <;> by_cases hc1 : c1 = 250 ∨ c1 = 251 <;>
      simp [r, check_catchall_domain, hrange, h0, h1, trialAccepted,
        trialRejected, trialFailed, hc0, hc1]
  · by_cases hc0 : c0 = 250 ∨ c0 = 251 <;>
      simp [r, check_catchall_domain, hrange, h0, h1, trialAccepted,
        trialRejected, trialFailed, hc0]
  · by_cases hc1 : c1 = 250 ∨ c1 = 251 <;>
      simp [r, check_catchall_domain, hrange, h0, h1, trialAccepted,
        trialRejected, trialFailed, hc1]
  · simp [r, check_catchall_domain, hrange, h0, h1, trialAccepted,
      trialRejected, trialFailed]

/-- C6 witness: two concrete accepted trials yield catch-all with high
confidence. -/
theorem c6_catchall_two_trial_classification_witness :
    let env : Nat → SmtpAttempt := fun _ => SmtpAttempt.response "ok" 250 "accepted"
    let r := check_catchall_domain (fun _ => "xk7j2m9qxk7j2m9q@example.com") 2 env
    r.is_catchall = true ∧ r.confidence = Confidence.high := by
  intro env r
  exact (c6_catchall_two_trial_classification
    (fun _ => "xk7j2m9qxk7j2m9q@example.com") env).2.1 (by decide) (by decide)

/-- Outcome of one `dns.resolver.resolve(domain, rtype)` call: an answer, or
one of the exception classes `domain_check.validate_domain` catches. -/
inductive DnsAnswer where
  | found (records : List String)
  | nxdomain
  | noAnswer
  | noNameservers
  | timeout
  | otherError (msg : String)
deriving DecidableEq, Repr

/-- The DNS environment: what resolving MX respectively A records of a
domain would return. -/
structure DnsEnv where
  mx : String → DnsAnswer
  a : String → DnsAnswer

/-- The result dictionary of `domain_check.validate_domain`. -/
structure DomainResult where
  valid : Bool
  has_mx : Bool
  has_a : Bool
  mx_records : List String
  errors : List String
deriving DecidableEq, Repr

/-- Association-list lookup, mirroring `_DOMAIN_CACHE.get(domain)`. -/
def lookupA (d : String) : List (String × DomainResult) → Option DomainResult
  | [] => none
  | (k, v) :: rest => if k = d then some v else lookupA d rest

/-- The cache-miss body of `validate_domain`: the MX lookup, the A-record
fallback, the per-exception error messages with their dedup guards, and the
final validity computation.  Returns the record together with the number of
`dns.resolver.resolve` calls performed (1 when MX records were found, 2 when
the A fallback also ran). -/
def resolve_fresh (env : DnsEnv) (domain : String) : DomainResult × Nat :=
  let mx0 := env.mx domain
  let has_mx : Bool := match mx0 with | DnsAnswer.found _ => true | _ => false
  let mx_records : List String := match mx0 with | DnsAnswer.found recs => recs | _ => []
  let errors1 : List String :=
    match mx0 with
    | DnsAnswer.found _ => []
    | DnsAnswer.nxdomain => ["Domain " ++ domain ++ " does not exist"]
    | DnsAnswer.noAnswer => []
    | DnsAnswer.noNameservers => ["No nameservers available for domain " ++ domain]
    | DnsAnswer.timeout => ["DNS lookup timeout for domain " ++ domain]
    | DnsAnswer.otherError m => ["DNS MX lookup error: " ++ m]
  if has_mx then
    ({ valid := true, has_mx := true, has_a := false,
       mx_records := mx_records, errors := errors1 }, 1)
  else
    let a0 := env.a domain
    let has_a : Bool := match a0 with | DnsAnswer.found _ => true | _ => false
    let errors2 : List String :=
      match a0 with
      | DnsAnswer.found _ => errors1
      | DnsAnswer.nxdomain =>
        if errors1.any (fun s => strContains s "does not exist") then errors1
        else errors1 ++ ["Domain " ++ domain ++ " does not exist"]
      | DnsAnswer.noAnswer => errors1 ++ ["Domain " ++ domain ++ " has no A records"]
      | DnsAnswer.noNameservers =>
        if errors1.any (fun s => strContains s "No nameservers") then errors1
        else errors1 ++ ["No nameservers available for domain " ++ domain]
      | DnsAnswer.timeout =>
        if errors1.any (fun s => strContains s "timeout") then errors1
        else errors1 ++ ["DNS lookup timeout for domain " ++ domain]
      | DnsAnswer.otherError m => errors1 ++ ["DNS A lookup error: " ++ m]
    let errors3 :=
      if has_a = false ∧ errors2 = []
      then ["Domain " ++ domain ++ " has no valid MX or A records"]
      else errors2
    ({ valid := has_a, has_mx := false, has_a := has_a,
       mx_records := mx_records, errors := errors3 }, 2)

/-- `domain_check.validate_domain` with the process-wide `_DOMAIN_CACHE`
made explicit: returns the result record, the cache after the call, and the
number of DNS resolve operations performed. -/
def validate_domain (env : DnsEnv) (cache : List (String × DomainResult))
    (email : String) : DomainResult × List (String × DomainResult) × Nat :=
  let domain := extract_domain email
  if domain = "" then
    ({ valid := false, has_mx := false, has_a := false, mx_records := [],
       errors := ["Could not extract domain from email"] }, cache, 0)
  else
    match lookupA domain cache with
    | some r => (r, cache, 0)
    | none =>
      let fr := resolve_fresh env domain
      (fr.1, (domain, fr.1) :: cache, fr.2)

/-- C9: once a domain has been resolved, every later `validate_domain` call
for an address of that domain performs zero DNS operations, returns the very
record the first call produced, and leaves the cache unchanged. -/
theorem c9_domain_cache_idempotent (env : DnsEnv)
    (cache : List (String × DomainResult)) (email : String)
    (hdom : extract_domain email ≠ "") :
    let out1 := validate_domain env cache email
    validate_domain env out1.2.1 email = (out1.1, out1.2.1, 0) := by
  intro out1
  simp only [out1, validate_domain, if_neg hdom]
  cases hl : lookupA (extract_domain email) cache with
  | some r => simp [hl]
  | none => simp [hl, lookupA]

/-- C9 witness: a concrete domain resolved from the empty cache, the second
call returning the first result with no DNS work. -/
theorem c9_domain_cache_idempotent_witness :
    let env : DnsEnv :=
      { mx := fun _ => DnsAnswer.found ["mx.acme.test."], a := fun _ => DnsAnswer.noAnswer }
    let out1 := validate_domain env [] "alice@acme.test"
    validate_domain env out1.2.1 "alice@acme.test" = (out1.1, out1.2.1, 0) := by
  intro env out1
  exact c9_domain_cache_idempotent env [] "alice@acme.test" (by decide)

/-- The domains present in the cache (the keys of `_DOMAIN_CACHE`). -/
def cacheKeys (c : List (String × DomainResult)) : List String :=
  c.map Prod.fst

/-- Phase 1 of the batch coordinator resolves every address through the
shared cache: fold `validate_domain` over the address list.  Every cache
miss — i.e. every fresh resolution — adds exactly one cache entry, so the
cache size counts the resolutions performed. -/
def resolveBatch (env : DnsEnv) (cache : List (String × DomainResult))
    (emails : List String) : List (String × DomainResult) :=
  emails.foldl (fun c e => (validate_domain env c e).2.1) cache

/-- Modelled from the spec: `check_catchall_for_domains` is imported by
`app.py` from `modules.smtp_check_async` but is not defined anywhere in the
sources.  Per §4.3/§4.4 of the spec ("This check is run once per unique
domain per batch, never per address"), it runs the Catch-All Detector once
per unique domain of the `email_domain_map` built in phase 1; this model
returns the list of domains on which the detector is invoked. -/
def check_catchall_for_domains (email_domain_map : List (String × DomainInfo)) :
    List String :=
  ((email_domain_map.map Prod.fst).map extract_domain).dedup

theorem lookupA_eq_none_iff (d : String) (c : List (String × DomainResult)) :
    lookupA d c = none ↔ d ∉ cacheKeys c := by
  induction c with
  | nil => simp [lookupA, cacheKeys]
  | cons kv rest ih =>
    obtain ⟨k, v⟩ := kv
    by_cases h : k = d <;> simp [lookupA, cacheKeys, h, ih, Ne.symm, eq_comm]

theorem cacheKeys_validate_domain (env : DnsEnv)
    (c : List (String × DomainResult)) (e : String)
    (h : extract_domain e ≠ "") :
    cacheKeys ((validate_domain env c e).2.1) =
      if extract_domain e ∈ cacheKeys c then cacheKeys c
      else extract_domain e :: cacheKeys c := by
  simp only [validate_domain, if_neg h]
  cases hl : lookupA (extract_domain e) c with
  | some r =>
    have : ¬ (extract_domain e ∉ cacheKeys c) := by
      rw [← lookupA_eq_none_iff]
      simp [hl]
    simp [hl, if_pos (not_not.mp this)]
  | none =>
    have hni : extract_domain e ∉ cacheKeys c := (lookupA_eq_none_iff _ _).mp hl
    simp only [cacheKeys] at hni
    simp [hl, cacheKeys, if_neg hni]

theorem mem_cacheKeys_validate_domain (env : DnsEnv)
    (c : List (String × DomainResult)) (e d : String)
    (h : extract_domain e ≠ "") :
    d ∈ cacheKeys ((validate_domain env c e).2.1) ↔
      d = extract_domain e ∨ d ∈ cacheKeys c := by
  rw [cacheKeys_validate_domain env c e h]
  by_cases hmem : extract_domain e ∈ cacheKeys c
  · simp only [if_pos hmem]
    constructor
    · exact fun hd => Or.inr hd
    · rintro (rfl | hd)
      · exact hmem
      · exact hd
  · simp [if_neg hmem]

theorem mem_cacheKeys_resolveBatch (env : DnsEnv) (es : List String) :
    ∀ (c : List (String × DomainResult)), (∀ e ∈ es, extract_domain e ≠ "") →
    ∀ d, d ∈ cacheKeys (resolveBatch env c es) ↔
      d ∈ cacheKeys c ∨ d ∈ es.map extract_domain := by
  induction es with
  | nil => intro c _ d; simp [resolveBatch]
  | cons e rest ih =>
    intro c hall d
    have hstep : resolveBatch env c (e :: rest) =
        resolveBatch env ((validate_domain env c e).2.1) rest := by
      simp [resolveBatch]
    rw [hstep, ih _ (fun x hx => hall x (List.mem_cons_of_mem _ hx)) d,
      mem_cacheKeys_validate_domain env c e d (hall e (List.mem_cons_self _ _))]
    simp only [List.map_cons, List.mem_cons]
    tauto

theorem nodup_cacheKeys_resolveBatch (env : DnsEnv) (es : List String) :
    ∀ (c : List (String × DomainResult)), (∀ e ∈ es, extract_domain e ≠ "") →
    (cacheKeys c).Nodup → (cacheKeys (resolveBatch env c es)).Nodup := by
  induction es with
  | nil => intro c _ hc; simpa [resolveBatch] using hc
  | cons e rest ih =>
    intro c hall hc
    have hstep : resolveBatch env c (e :: rest) =
        resolveBatch env ((validate_domain env c e).2.1) rest := by
      simp [resolveBatch]
    rw [hstep]
    refine ih _ (fun x hx => hall x (List.mem_cons_of_mem _ hx)) ?_
    rw [cacheKeys_validate_domain env c e (hall e (List.mem_cons_self _ _))]
    by_cases hmem : extract_domain e ∈ cacheKeys c
    · simpa [if_pos hmem] using hc
    · simp only [if_neg hmem]
      exact List.Nodup.cons hmem hc

/-- C5: starting from a fresh cache, a batch resolution performs exactly one
fresh DNS resolution per unique domain of the batch (the final cache has one
entry per unique domain), and the modelled `check_catchall_for_domains`
invokes the Catch-All Detector exactly once per unique domain of the
`email_domain_map` (one entry per address, as phase 1 builds it). -/
theorem c5_resolution_and_catchall_once_per_domain (env : DnsEnv)
    (es : List String) (dm : String → DomainInfo)
    (hall : ∀ e ∈ es, extract_domain e ≠ "") :
    (resolveBatch env [] es).length = (es.map extract_domain).dedup.length ∧
    (check_catchall_for_domains (es.map (fun e => (e, dm e)))).length =
      (es.map extract_domain).dedup.length := by
  constructor
  · have hmem := mem_cacheKeys_resolveBatch env es [] hall
    have hnd : (cacheKeys (resolveBatch env [] es)).Nodup :=
      nodup_cacheKeys_resolveBatch env es [] hall (by simp [cacheKeys])
    have hperm : List.Perm (cacheKeys (resolveBatch env [] es))
        ((es.map extract_domain).dedup) := by
      rw [List.perm_ext_iff_of_nodup hnd (List.nodup_dedup _)]
      intro d
      rw [hmem d, List.mem_dedup]
      simp [cacheKeys]
    have hlen : (cacheKeys (resolveBatch env [] es)).length =
        (es.map extract_domain).dedup.length := hperm.length_eq
    simpa [cacheKeys] using hlen
  · simp only [check_catchall_for_domains]
    have : (es.map (fun e => (e, dm e))).map Prod.fst = es := by
      simp [List.map_map, Function.comp_def]
    rw [this]

/-- C5 witness: the spec scenario — three addresses, two sharing a domain —
resolves DNS exactly twice and checks catch-all exactly twice. -/
theorem c5_resolution_and_catchall_once_per_domain_witness :
    let env : DnsEnv :=
      { mx := fun _ => DnsAnswer.found ["mx.test."], a := fun _ => DnsAnswer.noAnswer }
    let di : DomainInfo :=
      { valid := true, has_mx := true, has_a := false, mx_records := ["mx.test."], errors := [] }
    let es := ["alice@acme.com", "bob@acme.com", "carol@zeta.org"]
    (resolveBatch env [] es).length = 2 ∧
    (check_catchall_for_domains (es.map (fun e => (e, di)))).length = 2 := by
  intro env di es
  have h := c5_resolution_and_catchall_once_per_domain env es (fun _ => di) (by decide)
  exact ⟨h.1.trans (by decide), h.2.trans (by decide)⟩

/-- The entry of one job in `JobTracker.jobs` (`job_tracker.py`).  Timestamps are
rationals; counters are integers as in Python. -/
structure JobState where
  status : String
  total_emails : Int
  validated_count : Int
  valid_count : Int
  invalid_count : Int
  disposable_count : Int
  role_based_count : Int
  personal_count : Int
  started_at : ℚ
  completed_at : Option ℚ
  error : Option String
deriving DecidableEq, Repr

/-- `JobTracker.create_job`: a fresh pending job with zeroed counters. -/
def create_job (total_emails : Int) (started : ℚ) : JobState :=
  { status := "pending", total_emails := total_emails, validated_count := 0,
    valid_count := 0, invalid_count := 0, disposable_count := 0,
    role_based_count := 0, personal_count := 0, started_at := started,
    completed_at := none, error := none }

/-- `JobTracker.update_progress`: stores the supplied `validated_count`
unconditionally, stores each optional counter when present, and promotes a
pending job to running.  No monotonicity or bound check is performed. -/
def update_progress (s : JobState) (validated_count : Int)
    (valid_count invalid_count disposable_count role_based_count
      personal_count : Option Int) : JobState :=
  let s := { s with validated_count := validated_count }
  let s := match valid_count with
    | some v => { s with valid_count := v }
    | none => s
  let s := match invalid_count with
    | some v => { s with invalid_count := v }
    | none => s
  let s := match disposable_count with
    | some v => { s with disposable_count := v }
    | none => s
  let s := match role_based_count with
    | some v => { s with role_based_count := v }
    | none => s
  let s := match personal_count with
    | some v => { s with personal_count := v }
    | none => s
  if s.status = "pending" then { s with status := "running" } else s

/-- `JobTracker.complete_job`: marks the job completed or failed, stamps the
completion time, and records the error only when it is truthy. -/
def complete_job (s : JobState) (success : Bool) (error : Option String)
    (now : ℚ) : JobState :=
  let s := { s with status := if success then "completed" else "failed",
                    completed_at := some now }
  match error with
  | some e => if e = "" then s else { s with error := some e }
  | none => s

/-- `JobTracker.get_progress_percent`:
`(validated_count / total_emails) * 100`, or `0.0` when the total is 0. -/
def get_progress_percent (s : JobState) : ℚ :=
  if s.total_emails = 0 then 0
  else ((s.validated_count : ℚ) / (s.total_emails : ℚ)) * 100

/-- Python `int(·)` on a rational: truncation toward zero. -/
def pyInt (q : ℚ) : Int :=
  if 0 ≤ q then ⌊q⌋ else ⌈q⌉

/-- `JobTracker.estimate_time_remaining`: absent unless the job is running
with a nonzero `validated_count`; otherwise
`int(remaining_emails * (elapsed / validated_count))`. -/
def estimate_time_remaining (s : JobState) (now : ℚ) : Option Int :=
  if s.status ≠ "running" then none
  else if s.validated_count = 0 then none
  else
    let elapsed : ℚ := now - s.started_at
    let time_per_email : ℚ := elapsed / (s.validated_count : ℚ)
    let remaining_emails : ℚ := (s.total_emails : ℚ) - (s.validated_count : ℚ)
    some (pyInt (remaining_emails * time_per_email))

/-- The job states traversed by a sequence of `update_progress` calls that
supply only the overall counter. -/
def progressTrace (s : JobState) : List Int → List JobState
  | [] => []
  | v :: vs =>
    let t := update_progress s v none none none none none
    t :: progressTrace t vs

theorem update_progress_validated (s : JobState) (v : Int)
    (a b c d e : Option Int) :
    (update_progress s v a b c d e).validated_count = v ∧
    (update_progress s v a b c d e).total_emails = s.total_emails := by
  simp only [update_progress]
  rcases a with _ | a <;> rcases b with _ | b <;> rcases c with _ | c <;>
    rcases d with _ | d <;> rcases e with _ | e <;>
    constructor <;> split <;> rfl

theorem get_progress_percent_le_100 (s : JobState)
    (htot : 0 ≤ s.total_emails) (hle : s.validated_count ≤ s.total_emails) :
    get_progress_percent s ≤ 100 := by
  unfold get_progress_percent
  split
  · norm_num
  · rename_i hz
    have hpos : (0 : ℚ) < (s.total_emails : ℚ) := by
      have : (0 : Int) < s.total_emails := lt_of_le_of_ne htot (fun h => hz h.symm)
      exact_mod_cast this
    have hq : ((s.validated_count : ℚ) / (s.total_emails : ℚ)) ≤ 1 := by
      rw [div_le_one hpos]
      exact_mod_cast hle
    calc ((s.validated_count : ℚ) / (s.total_emails : ℚ)) * 100
        ≤ 1 * 100 := by
          have h100 : (0 : ℚ) ≤ 100 := by norm_num
          exact mul_le_mul_of_nonneg_right hq h100
      _ = 100 := by norm_num

/-- The value the phase-2 `progress_callback` in `app.py` supplies to
`update_progress` when SMTP is enabled: phase 1 counts for 40% and phase 2
for 60% of the bar, scaled to an effective whole-email count (floats
modelled as exact rationals). -/
def progress_callback_value (total_emails completed_smtp total_smtp : Nat) : Int :=
  let precheck_progress : ℚ := 2 / 5
  let smtp_progress : ℚ := (3 / 5) * ((completed_smtp : ℚ) / (max total_smtp 1 : ℚ))
  let total_progress_fraction : ℚ := min 1 (precheck_progress + smtp_progress)
  pyInt ((total_emails : ℚ) * total_progress_fraction)

theorem update_progress_status (s : JobState) (v : Int) (a b c d e : Option Int) :
    (update_progress s v a b c d e).status =
      if s.status = "pending" then "running" else s.status := by
  simp only [update_progress]
  rcases a with _ | a <;> rcases b with _ | b <;> rcases c with _ | c <;>
    rcases d with _ | d <;> rcases e with _ | e <;> split <;> simp_all

/-- C3 counterexample: `update_progress` stores whatever it is given.  A
single call with 150 on a 100-address job drives `completedCount` above
`totalAddresses` and `GetProgressPercent` to 150; moreover the coordinator
itself issues a decreasing sequence: the final phase-1 update reports 100,
then the first phase-2 callback (1 of 100 SMTP checks done) reports
`int(100 * (0.4 + 0.6 * 1/100)) = 40`. -/
theorem c3_progress_monotonicity_counterexample :
    let s0 := create_job 100 0
    let sBig := update_progress s0 150 none none none none none
    let s1 := update_progress s0 100 none none none none none
    let v2 := progress_callback_value 100 1 100
    let s2 := update_progress s1 v2 none none none none none
    (sBig.validated_count = 150 ∧ sBig.total_emails = 100 ∧
     get_progress_percent sBig = 150) ∧
    (s1.validated_count = 100 ∧ v2 = 40 ∧ s2.validated_count = 40 ∧
     s2.validated_count < s1.validated_count) := by
  have hval : progress_callback_value 100 1 100 = 40 := by
    unfold progress_callback_value pyInt
    norm_num [min_def]
  have hpct : get_progress_percent
      (update_progress (create_job 100 0) 150 none none none none none) = 150 := by
    unfold get_progress_percent
    rw [show (update_progress (create_job 100 0) 150 none none none none
        none).validated_count = 150 from rfl]
    rw [show (update_progress (create_job 100 0) 150 none none none none
        none).total_emails = 100 from rfl]
    norm_num
  refine ⟨⟨rfl, rfl, hpct⟩, rfl, hval, ?_, ?_⟩
  · rw [(update_progress_validated _ _ none none none none none).1, hval]
  · rw [(update_progress_validated _ _ none none none none none).1, hval]
    rw [show (update_progress (create_job 100 0) 100 none none none none
        none).validated_count = 100 from rfl]
    norm_num

theorem progressTrace_map_validated (us : List Int) :
    ∀ s : JobState, (progressTrace s us).map (fun t => t.validated_count) = us := by
  induction us with
  | nil => intro s; simp [progressTrace]
  | cons v vs ih =>
    intro s
    simp [progressTrace, (update_progress_validated s v none none none none none).1, ih]

theorem progressTrace_total (us : List Int) :
    ∀ s : JobState, ∀ t ∈ progressTrace s us, t.total_emails = s.total_emails := by
  induction us with
  | nil => intro s t ht; simp [progressTrace] at ht
  | cons v vs ih =>
    intro s t ht
    simp only [progressTrace, List.mem_cons] at ht
    rcases ht with rfl | ht
    · exact (update_progress_validated s v none none none none none).2
    · exact (ih _ t ht).trans (update_progress_validated s v none none none none none).2

/-- C3 (amended): `update_progress` stores the supplied count verbatim, so
the invariant holds exactly for call sequences whose supplied counts are
themselves non-decreasing from 0 and bounded by the total: then the observed
`completedCount` sequence is non-decreasing, never exceeds
`totalAddresses`, and `GetProgressPercent` never exceeds 100.  (The
counterexample shows arbitrary calls — including the very ones the coordinator
issues in phase 2 after phase 1 has completed — violate the unrestricted
claim.) -/
theorem c3_progress_monotone_of_monotone_updates (total : Int) (started : ℚ)
    (us : List Int)
    (htot : 0 ≤ total)
    (hchain : List.Chain' (· ≤ ·) (0 :: us))
    (hbound : ∀ v ∈ us, v ≤ total) :
    List.Chain' (· ≤ ·)
      ((create_job total started :: progressTrace (create_job total started) us).map
        (fun t => t.validated_count)) ∧
    ∀ t ∈ progressTrace (create_job total started) us,
      t.validated_count ≤ t.total_emails ∧ get_progress_percent t ≤ 100 := by
  have hmap : (progressTrace (create_job total started) us).map
      (fun t => t.validated_count) = us :=
    progressTrace_map_validated us (create_job total started)
  constructor
  · rw [List.map_cons, hmap]
    exact hchain
  · intro t ht
    have htotal : t.total_emails = total :=
      progressTrace_total us (create_job total started) t ht
    have hv : t.validated_count ∈ us := by
      rw [← hmap]
      exact List.mem_map_of_mem _ ht
    have hle : t.validated_count ≤ t.total_emails := by
      rw [htotal]
      exact hbound _ hv
    exact ⟨hle, get_progress_percent_le_100 t (by rw [htotal]; exact htot) hle⟩

/-- C3 witness: a monotone bounded update sequence on a 100-address job. -/
theorem c3_progress_monotone_of_monotone_updates_witness :
    List.Chain' (· ≤ ·)
      ((create_job 100 0 :: progressTrace (create_job 100 0) [10, 50, 100]).map
        (fun t => t.validated_count)) ∧
    ∀ t ∈ progressTrace (create_job 100 0) [10, 50, 100],
      t.validated_count ≤ t.total_emails ∧ get_progress_percent t ≤ 100 := by
  exact c3_progress_monotone_of_monotone_updates 100 0 [10, 50, 100]
    (by norm_num) (by simp [List.chain'_cons]) (by decide)

/-- C7 counterexample: after `complete_job` the job is completed, yet a
later `update_progress` call still overwrites its counters (5 becomes 7);
only the status is left alone. -/
theorem c7_update_after_complete_counterexample :
    let s1 := update_progress (create_job 10 0) 5 none none none none none
    let s2 := complete_job s1 true none 1
    let s3 := update_progress s2 7 none none none none none
    s2.status = "completed" ∧ s2.validated_count = 5 ∧
    s3.validated_count = 7 ∧ s3.validated_count ≠ s2.validated_count ∧
    s3.status = "completed" := by
  refine ⟨rfl, rfl, rfl, by decide, rfl⟩

/-- C7 (amended): once a job is completed or failed, `update_progress`
never changes its status again (the only transition it performs is
pending → running), but it does keep overwriting the counters — the stored
`completedCount` becomes whatever the call supplies. -/
theorem c7_status_terminal_for_updates (s : JobState) (v : Int)
    (a b c d e : Option Int)
    (h : s.status = "completed" ∨ s.status = "failed") :
    (update_progress s v a b c d e).status = s.status ∧
    (update_progress s v a b c d e).validated_count = v := by
  have hs : ¬ (s.status = "pending") := by
    rcases h with h | h <;> simp [h]
  refine ⟨?_, (update_progress_validated s v a b c d e).1⟩
  rw [update_progress_status, if_neg hs]

/-- C7 witness: the amended statement at a concrete completed job. -/
theorem c7_status_terminal_for_updates_witness :
    let s2 := complete_job (update_progress (create_job 10 0) 5 none none none none none)
      true none 1
    (update_progress s2 7 none none none none none).status = s2.status ∧
    (update_progress s2 7 none none none none none).validated_count = 7 := by
  intro s2
  exact c7_status_terminal_for_updates s2 7 none none none none none (Or.inl rfl)

/-- C8 counterexample: a running job with 2 of 3 addresses done after 1
second has `(elapsed / completed) * (total - completed) = 1/2`, but
`estimate_time_remaining` returns `int(1/2) = 0` seconds, not the value of
the formula — the source truncates to a whole number of seconds. -/
theorem c8_eta_truncation_counterexample :
    let s1 := update_progress (create_job 3 0) 2 none none none none none
    estimate_time_remaining s1 1 = some 0 ∧
    (((1 : ℚ) - 0) / 2) * ((3 : ℚ) - 2) = 1 / 2 ∧
    ((0 : ℚ) ≠ 1 / 2) := by
  intro s1
  have h1 : s1.status = "running" := rfl
  have h2 : s1.validated_count = 2 := rfl
  have h3 : s1.total_emails = 3 := rfl
  have h4 : s1.started_at = 0 := rfl
  refine ⟨?_, by norm_num, by norm_num⟩
  unfold estimate_time_remaining pyInt
  rw [h1, h2, h3, h4]
  norm_num

/-- C8 (amended): `EstimateRemaining` is absent exactly when the job is not
running or `completedCount` is zero; otherwise it returns a finite integer
number of seconds that is the value
`(elapsedSinceStart / completedCount) * (total - completedCount)` rounded
down to the next integer (the source applies Python `int(...)` to the
formula). -/
theorem c8_eta_absent_iff_and_floor (s : JobState) (now : ℚ) :
    (estimate_time_remaining s now = none ↔
      (s.status ≠ "running" ∨ s.validated_count = 0)) ∧
    (s.status = "running" → 0 < s.validated_count →
      s.validated_count ≤ s.total_emails → s.started_at ≤ now →
      ∃ r : Int, estimate_time_remaining s now = some r ∧
        (r : ℚ) ≤ ((now - s.started_at) / (s.validated_count : ℚ)) *
          ((s.total_emails : ℚ) - (s.validated_count : ℚ)) ∧
        ((now - s.started_at) / (s.validated_count : ℚ)) *
          ((s.total_emails : ℚ) - (s.validated_count : ℚ)) - 1 < (r : ℚ)) := by
  constructor
  · unfold estimate_time_remaining
    split_ifs with hA hB
    · simp [hA]
    · simp [hB]
    · simp [hA, hB]
  · intro hrun hpos hle hnow
    have hA : ¬ (s.status ≠ "running") := by simp [hrun]
    have hB : ¬ (s.validated_count = 0) := by omega
    have hq : ((s.total_emails : ℚ) - (s.validated_count : ℚ)) *
        ((now - s.started_at) / (s.validated_count : ℚ)) =
        ((now - s.started_at) / (s.validated_count : ℚ)) *
        ((s.total_emails : ℚ) - (s.validated_count : ℚ)) := mul_comm _ _
    have hqnn : 0 ≤ ((s.total_emails : ℚ) - (s.validated_count : ℚ)) *
        ((now - s.started_at) / (s.validated_count : ℚ)) := by
      apply mul_nonneg
      · have : (s.validated_count : ℚ) ≤ (s.total_emails : ℚ) := by exact_mod_cast hle
        linarith
      · apply div_nonneg
        · linarith
        · have : (0 : ℚ) < (s.validated_count : ℚ) := by exact_mod_cast hpos
          linarith
    refine ⟨⌊((s.total_emails : ℚ) - (s.validated_count : ℚ)) *
        ((now - s.started_at) / (s.validated_count : ℚ))⌋, ?_, ?_, ?_⟩
    · unfold estimate_time_remaining pyInt
      rw [if_neg hA, if_neg hB]
      simp only [if_pos hqnn]
    · rw [← hq]
      exact Int.floor_le _
    · rw [← hq]
      exact Int.sub_one_lt_floor _

/-- C8 witness: a concrete running job (5 of 10 done, 10 seconds elapsed)
has a present, finite estimate within one second below the formula. -/
theorem c8_eta_absent_iff_and_floor_witness :
    let s := update_progress (create_job 10 0) 5 none none none none none
    ∃ r : Int, estimate_time_remaining s 10 = some r ∧
      (r : ℚ) ≤ ((10 - s.started_at) / (s.validated_count : ℚ)) *
        ((s.total_emails : ℚ) - (s.validated_count : ℚ)) ∧
      ((10 - s.started_at) / (s.validated_count : ℚ)) *
        ((s.total_emails : ℚ) - (s.validated_count : ℚ)) - 1 < (r : ℚ) := by
  intro s
  refine (c8_eta_absent_iff_and_floor s 10).2 rfl (by decide) (by decide) ?_
  rw [show s.started_at = 0 from rfl]
  norm_num

/-- Per-address outcome of the phase-1 pre-checks
(`validate_email_complete(email, include_smtp=False)`): overall validity and
the two type-check flags used for the progress statistics. -/
structure PrecheckOutcome where
  valid : Bool
  disposable : Bool
  role_based : Bool
deriving DecidableEq, Repr

/-- A positional call to `JobTracker.update_progress` with the given
argument list (after `job_id`).  The method accepts `validated_count` plus
five optional counters; Python raises `TypeError` when more positional
arguments are supplied, before any state is touched. -/
def update_progress_args (s : JobState) : List Int → Except String JobState
  | [v] => Except.ok (update_progress s v none none none none none)
  | [v, a] => Except.ok (update_progress s v (some a) none none none none)
  | [v, a, b] => Except.ok (update_progress s v (some a) (some b) none none none)
  | [v, a, b, c] => Except.ok (update_progress s v (some a) (some b) (some c) none none)
  | [v, a, b, c, d] =>
    Except.ok (update_progress s v (some a) (some b) (some c) (some d) none)
  | [v, a, b, c, d, e] =>
    Except.ok (update_progress s v (some a) (some b) (some c) (some d) (some e))
  | _ => Except.error
      "TypeError: update_progress() takes from 3 to 8 positional arguments but 9 were given"

/-- One iteration of the phase-1 loop of `run_smtp_validation_background`:
decide whether to push a progress update (every `UPDATE_BATCH_SIZE`-th
address, on a one-second timer tick — abstracted as the `tick` oracle — or
on the final address) and, if so, call `update_progress` with the running
statistics over the addresses processed so far.  This in-loop call passes
six positional values, which the method accepts. -/
def phase1Step (results : List PrecheckOutcome) (total : Nat) (tick : Nat → Bool)
    (s : JobState) (i : Nat) : JobState :=
  let completed := i + 1
  let batchSize := if total > 200 then 10 else 1
  let shouldUpdate := (completed % batchSize = 0) || tick i || (completed = total)
  if shouldUpdate then
    let seen := results.take completed
    let valid : Int := (seen.countP (fun r => r.valid) : Nat)
    let invalid : Int := (completed : Int) - valid
    let disposable : Int := (seen.countP (fun r => r.disposable) : Nat)
    let role_based : Int := (seen.countP (fun r => r.role_based) : Nat)
    let personal : Int := valid - disposable - role_based
    match update_progress_args s
      [(completed : Int), valid, invalid, disposable, role_based, personal] with
    | Except.ok t => t
    | Except.error _ => s
  else s

/-- The `include_smtp = False` path of `app.run_smtp_validation_background`:
phase-1 loop, then the final statistics update — which passes the extra
`final_catchall` argument (seven values after `job_id`) that
`update_progress` does not accept — then `complete_job(success=True)`.  The
surrounding `except` handler turns any exception into
`complete_job(success=False, error=...)` on the state reached so far. -/
def run_smtp_validation_background_precheck (results : List PrecheckOutcome)
    (tick : Nat → Bool) (startedAt now : ℚ) : JobState :=
  let total := results.length
  let s0 := create_job (total : Int) startedAt
  if total = 0 then complete_job s0 true none now
  else
    let s1 := (List.range total).foldl (phase1Step results total tick) s0
    let final_valid : Int := (results.countP (fun r => r.valid) : Nat)
    let final_invalid : Int := (total : Int) - final_valid
    let final_disposable : Int := (results.countP (fun r => r.disposable) : Nat)
    let final_role_based : Int := (results.countP (fun r => r.role_based) : Nat)
    let final_personal : Int := final_valid - final_disposable - final_role_based
    let final_catchall : Int := 0
    match update_progress_args s1
      [(total : Int), final_valid, final_invalid, final_disposable,
       final_role_based, final_personal, final_catchall] with
    | Except.ok s2 => complete_job s2 true none now
    | Except.error e => complete_job s1 false (some e) now

/-- The 100-address all-valid pre-check batch of the C4 scenario. -/
def batch100 : List PrecheckOutcome :=
  List.replicate 100 { valid := true, disposable := false, role_based := false }

set_option maxRecDepth 10000 in
/-- C4: a 100-address batch with SMTP disabled does reach 100% progress in
phase 1, but the job finishes with status `"failed"`, not `"completed"`:
the final statistics update passes seven positional counter values to
`update_progress`, which accepts six, so the call raises `TypeError` and
the exception handler marks the job failed with the error recorded. -/
theorem c4_precheck_only_job_marked_failed :
    (run_smtp_validation_background_precheck batch100 (fun _ => false) 0 60).status
      = "failed" ∧
    (run_smtp_validation_background_precheck batch100 (fun _ => false) 0
      60).validated_count = 100 ∧
    (run_smtp_validation_background_precheck batch100 (fun _ => false) 0
      60).total_emails = 100 ∧
    get_progress_percent
      (run_smtp_validation_background_precheck batch100 (fun _ => false) 0 60) = 100 ∧
    (run_smtp_validation_background_precheck batch100 (fun _ => false) 0 60).error
      ≠ none := by
  refine ⟨by decide, by decide, by decide, ?_, by decide⟩
  unfold get_progress_percent
  rw [show (run_smtp_validation_background_precheck batch100 (fun _ => false) 0
        60).validated_count = 100 from by decide,
      show (run_smtp_validation_background_precheck batch100 (fun _ => false) 0
        60).total_emails = 100 from by decide]
  norm_num
